import Mathlib

/-!
# Chef Book: generated asset-symbol headers

The repository content under verification is two Objective-C headers emitted by the
asset-catalog compiler, both called `GeneratedAssetSymbols.h`:

* `Chef Book.build/DerivedSources/GeneratedAssetSymbols.h` (application target),
* `CookTimerWidgetExtension.build/DerivedSources/GeneratedAssetSymbols.h` (widget target).

Each header is embedded as the list of its text lines, verbatim.  On top of the text we
define a small line classifier, a recogniser for the declaration form, a recogniser for
the preprocessor directives that occur, and a preprocessor state machine.  All functions
are structurally recursive over character lists so that they evaluate on the two files.
-/

namespace ChefBook

/-! ## The two source files, line by line -/

/-- Lines 1..37 of `Chef Book.build/DerivedSources/GeneratedAssetSymbols.h`, each without
its line terminator.  Line 37, after the closing directive, is empty. -/
def chefBookHeader : List String :=
  [ "#import <Foundation/Foundation.h>",
    "",
    "#if __has_attribute(swift_private)",
    "#define AC_SWIFT_PRIVATE __attribute__((swift_private))",
    "#else",
    "#define AC_SWIFT_PRIVATE",
    "#endif",
    "",
    "/// The resource bundle ID.",
    "static NSString * const ACBundleID AC_SWIFT_PRIVATE = @\"bwt.Chef-Book\";",
    "",
    "/// The \"AccentColor\" asset catalog color resource.",
    "static NSString * const ACColorNameAccentColor AC_SWIFT_PRIVATE = @\"AccentColor\";",
    "",
    "/// The \"Base200Color\" asset catalog color resource.",
    "static NSString * const ACColorNameBase200Color AC_SWIFT_PRIVATE = @\"Base200Color\";",
    "",
    "/// The \"Base300Color\" asset catalog color resource.",
    "static NSString * const ACColorNameBase300Color AC_SWIFT_PRIVATE = @\"Base300Color\";",
    "",
    "/// The \"BaseColor\" asset catalog color resource.",
    "static NSString * const ACColorNameBaseColor AC_SWIFT_PRIVATE = @\"BaseColor\";",
    "",
    "/// The \"MyPrimaryColor\" asset catalog color resource.",
    "static NSString * const ACColorNameMyPrimaryColor AC_SWIFT_PRIVATE = @\"MyPrimaryColor\";",
    "",
    "/// The \"MySecondaryColor\" asset catalog color resource.",
    "static NSString * const ACColorNameMySecondaryColor AC_SWIFT_PRIVATE = @\"MySecondaryColor\";",
    "",
    "/// The \"NeutralColor\" asset catalog color resource.",
    "static NSString * const ACColorNameNeutralColor AC_SWIFT_PRIVATE = @\"NeutralColor\";",
    "",
    "/// The \"TextColor\" asset catalog color resource.",
    "static NSString * const ACColorNameTextColor AC_SWIFT_PRIVATE = @\"TextColor\";",
    "",
    "#undef AC_SWIFT_PRIVATE",
    "" ]

/-- Lines 1..12 of `CookTimerWidgetExtension.build/DerivedSources/GeneratedAssetSymbols.h`,
each without its line terminator.  The file stops right after the closing directive. -/
def cookTimerWidgetHeader : List String :=
  [ "#import <Foundation/Foundation.h>",
    "",
    "#if __has_attribute(swift_private)",
    "#define AC_SWIFT_PRIVATE __attribute__((swift_private))",
    "#else",
    "#define AC_SWIFT_PRIVATE",
    "#endif",
    "",
    "/// The \"AppIconImage\" asset catalog image resource.",
    "static NSString * const ACImageNameAppIconImage AC_SWIFT_PRIVATE = @\"AppIconImage\";",
    "",
    "#undef AC_SWIFT_PRIVATE" ]

/-! ## Character-level helpers -/

/-- The double-quote character (code point 34). -/
def dq : Char := Char.ofNat 34

/-- Remove the literal `p` from the front of `s`; `none` when `s` does not start with `p`. -/
def dropLit : List Char → List Char → Option (List Char)
  | [], s => some s
  | _ :: _, [] => none
  | p :: ps, c :: cs => if p = c then dropLit ps cs else none

/-- Whether `s` starts with the literal `p`. -/
def startsWithLit (p : String) (s : String) : Bool :=
  (dropLit p.toList s.toList).isSome

/-- Remove the literal `p` from the end of `s`. -/
def dropLitEnd (p s : List Char) : Option (List Char) :=
  (dropLit p.reverse s.reverse).map List.reverse

/-- Characters allowed in a C identifier. -/
def isIdentChar (c : Char) : Bool :=
  c.isAlphanum || c = Char.ofNat 95

/-! ## Declarations -/

/-- A constant declaration of a generated header: the identifier and the string literal. -/
structure Decl where
  /-- The declared identifier. -/
  name : String
  /-- The contents of the `@"..."` initialiser. -/
  value : String
deriving DecidableEq, Repr

/-- Recognise a line of the exact shape
`static NSString * const <name> AC_SWIFT_PRIVATE = @"<literal>";`
where `<name>` is a non-empty identifier and `<literal>` contains no double quote. -/
def parseDecl (line : String) : Option Decl :=
  match dropLit "static NSString * const ".toList line.toList with
  | none => none
  | some r =>
    let nm := r.takeWhile isIdentChar
    if nm = [] then none else
    match dropLit " AC_SWIFT_PRIVATE = @\"".toList (r.dropWhile isIdentChar) with
    | none => none
    | some r2 =>
      if r2.dropWhile (fun c => c != dq) = "\";".toList then
        some ⟨String.mk nm, String.mk (r2.takeWhile (fun c => c != dq))⟩
      else none

/-- The text of a declaration in the generated form. -/
def renderDecl (d : Decl) : String :=
  "static NSString * const " ++ d.name ++ " AC_SWIFT_PRIVATE = @\"" ++ d.value ++ "\";"

/-- The four kinds of line that occur in a generated header. -/
inductive LineKind where
  | blank
  | directive
  | comment
  | code
deriving DecidableEq, Repr

/-- Classify a line by its first characters: empty, `#...`, `//...`, or anything else. -/
def classify (line : String) : LineKind :=
  match line.toList with
  | [] => .blank
  | c :: cs =>
    if c = Char.ofNat 35 then .directive
    else if (dropLit "//".toList (c :: cs)).isSome then .comment
    else .code

/-- The lines of a header that are neither blank, nor directives, nor comments:
these are its declarations, as text. -/
def codeLines (h : List String) : List String :=
  h.filter (fun l => classify l = .code)

/-- The declarations of a header, in file order. -/
def decls (h : List String) : List Decl :=
  (codeLines h).filterMap parseDecl

/-- The identifier of the bundle-identifier constant. -/
def bundleIdName : String := "ACBundleID"

/-- The asset symbols of a header: every declaration other than the bundle identifier. -/
def assetSymbols (h : List String) : List Decl :=
  (decls h).filter (fun d => d.name ≠ bundleIdName)

/-- Whether a header declares a bundle-identifier constant. -/
def hasBundleId (h : List String) : Bool :=
  (decls h).any (fun d => d.name = bundleIdName)

/-! ## Naming convention and documentation comments -/

/-- The `Kind` part of a symbol name: what stands between the leading `AC` and the
trailing `Name<value>`; `none` when the name does not have that shape. -/
def kindOf (d : Decl) : Option String :=
  match dropLit "AC".toList d.name.toList with
  | none => none
  | some r => (dropLitEnd ("Name" ++ d.value).toList r).map String.mk

/-- Lower-case a string character by character. -/
def lowerCase (s : String) : String :=
  String.mk (s.toList.map Char.toLower)

/-- The documentation comment the generator writes for an asset of kind `kind`
(already lower-cased) whose catalog name is `value`. -/
def assetDoc (value kind : String) : String :=
  "/// The \"" ++ value ++ "\" asset catalog " ++ kind ++ " resource."

/-- Every declaration of a header paired with the line directly above it
(`none` for a declaration on the first line). -/
def declsWithPrev : Option String → List String → List (Option String × Decl)
  | _, [] => []
  | prev, l :: ls =>
    match parseDecl l with
    | some d => (prev, d) :: declsWithPrev (some l) ls
    | none => declsWithPrev (some l) ls

/-- The asset symbols of a header, each with the line directly above its declaration. -/
def assetSymbolsWithPrev (h : List String) : List (Option String × Decl) :=
  (declsWithPrev none h).filter (fun p => p.2.name ≠ bundleIdName)

/-! ## Byte-wise order of asset values -/

/-- The UTF-8 encoding of a string, as a list of byte values. -/
def utf8Bytes (s : String) : List Nat :=
  s.toList.flatMap (fun c => (String.utf8EncodeChar c).map UInt8.toNat)

/-- Strict lexicographic order on byte strings: a proper initial segment is smaller,
otherwise the first differing byte decides. -/
def lexLt : List Nat → List Nat → Bool
  | [], [] => false
  | [], _ :: _ => true
  | _ :: _, [] => false
  | a :: as, b :: bs => a < b || (a == b && lexLt as bs)

/-- Strict byte-wise order on strings. -/
def bytesLt (s t : String) : Prop :=
  lexLt (utf8Bytes s) (utf8Bytes t) = true

instance (s t : String) : Decidable (bytesLt s t) := by
  unfold bytesLt; infer_instance

/-- The string values of the asset symbols of a header, in file order. -/
def assetValues (h : List String) : List String :=
  (assetSymbols h).map Decl.value

/-! ## Preprocessor -/

/-- The preprocessor's view of a line: one of the directives that occur in the generated
headers, or ordinary text. -/
inductive PPLine where
  | importFile (path : String)
  | ifHasAttribute (attr : String)
  | define (name body : String)
  | elseBranch
  | endIf
  | undefine (name : String)
  | text (line : String)
deriving DecidableEq, Repr

/-- Recognise the directive on a line.  Lines that do not start with `#` are text.
A `#define` is object-like: a name, then either nothing or one space and the replacement.
Any other directive is rejected. -/
def parsePP (line : String) : Option PPLine :=
  match dropLit "#".toList line.toList with
  | none => some (.text line)
  | some r =>
    match dropLit "import ".toList r with
    | some path => some (.importFile (String.mk path))
    | none =>
    match dropLit "if __has_attribute(".toList r with
    | some a => (dropLitEnd ")".toList a).map (fun x => .ifHasAttribute (String.mk x))
    | none =>
    match dropLit "define ".toList r with
    | some d =>
      if d.takeWhile isIdentChar = [] then none else
      match d.dropWhile isIdentChar with
      | [] => some (.define (String.mk (d.takeWhile isIdentChar)) "")
      | rest => (dropLit " ".toList rest).map
          (fun b => .define (String.mk (d.takeWhile isIdentChar)) (String.mk b))
    | none =>
    match dropLit "undef ".toList r with
    | some u => if u ≠ [] ∧ u.all isIdentChar then some (.undefine (String.mk u)) else none
    | none =>
    if r = "else".toList then some .elseBranch
    else if r = "endif".toList then some .endIf
    else none

/-- The directives and text lines of a header; `none` if some directive is not recognised. -/
def tokens : List String → Option (List PPLine)
  | [] => some []
  | l :: ls =>
    match parsePP l, tokens ls with
    | some t, some ts => some (t :: ts)
    | _, _ => none

/-- A macro table: the replacement text of each defined object-like macro. -/
abbrev MacroTable := String → Option String

/-- Define (`some body`) or undefine (`none`) one macro. -/
def setMacro (m : MacroTable) (n : String) (v : Option String) : MacroTable :=
  fun k => if k = n then v else m k

/-- What the translation unit supplies to the preprocessor: the value of each
`__has_attribute(...)` test and the effect on the macro table of each imported file. -/
structure PPEnv where
  /-- The value of `__has_attribute(attr)`. -/
  hasAttribute : String → Bool
  /-- The macro table after `#import path`, from the table before it. -/
  onImport : String → MacroTable → MacroTable

/-- Preprocessor state.  `conds` holds one frame per open `#if`: the value of its
condition and whether `#else` has been passed.  `out` logs every text line that is kept,
with the definition the watched macro has when the line is reached. -/
structure PPState where
  macros : MacroTable
  conds : List (Bool × Bool)
  out : List (String × Option String)

/-- Lines are kept when every open conditional is on its selected branch. -/
def active (conds : List (Bool × Bool)) : Bool :=
  conds.all (fun f => f.1 != f.2)

/-- One preprocessor step.  `none` is a preprocessing error (`#else` or `#endif`
without an open `#if`, or a second `#else`). -/
def step (env : PPEnv) (watch : String) (st : PPState) : PPLine → Option PPState
  | .importFile p =>
    some (if active st.conds then { st with macros := env.onImport p st.macros } else st)
  | .ifHasAttribute a =>
    some { st with conds := (env.hasAttribute a, false) :: st.conds }
  | .define n b =>
    some (if active st.conds then { st with macros := setMacro st.macros n (some b) } else st)
  | .elseBranch =>
    match st.conds with
    | (c, false) :: rest => some { st with conds := (c, true) :: rest }
    | _ => none
  | .endIf =>
    match st.conds with
    | _ :: rest => some { st with conds := rest }
    | [] => none
  | .undefine n =>
    some (if active st.conds then { st with macros := setMacro st.macros n none } else st)
  | .text l =>
    some (if active st.conds then { st with out := st.out ++ [(l, st.macros watch)] } else st)

/-- Run the preprocessor over a list of recognised lines. -/
def runTokens (env : PPEnv) (watch : String) : PPState → List PPLine → Option PPState
  | st, [] => some st
  | st, t :: ts =>
    match step env watch st t with
    | none => none
    | some st2 => runTokens env watch st2 ts

/-- Preprocess a header included into a translation unit whose macro table is `m0`. -/
def preprocess (env : PPEnv) (watch : String) (m0 : MacroTable) (h : List String) :
    Option PPState :=
  match tokens h with
  | none => none
  | some ts => runTokens env watch ⟨m0, [], []⟩ ts

/-- The macro that marks the generated symbols. -/
def swiftPrivateMacro : String := "AC_SWIFT_PRIVATE"

/-- The replacement of `AC_SWIFT_PRIVATE` chosen by the conditional at the top of a header. -/
def swiftPrivateBody (env : PPEnv) : String :=
  if env.hasAttribute "swift_private" then "__attribute__((swift_private))" else ""

/-- The logged lines that are declarations. -/
def loggedDecls (st : PPState) : List (String × Option String) :=
  st.out.filter (fun p => classify p.1 = .code)

/-- Whether the literal `p` occurs somewhere inside `s`. -/
def occursIn (p : List Char) : List Char → Bool
  | [] => (dropLit p []).isSome
  | c :: cs => (dropLit p (c :: cs)).isSome || occursIn p cs

/-- The part of a header from its `#undef AC_SWIFT_PRIVATE` line onwards. -/
def fromUndef (h : List String) : List String :=
  h.dropWhile (fun l => l ≠ "#undef AC_SWIFT_PRIVATE")

/-- The generated form of a declaration line `l` declaring `d`: static storage, a
const-qualified `NSString` pointer, the `AC_SWIFT_PRIVATE` marker, and a string-literal
initialiser; the name is a non-empty identifier and the literal holds no double quote. -/
def GeneratedForm (l : String) (d : Decl) : Prop :=
  l = "static NSString * const " ++ d.name ++ " AC_SWIFT_PRIVATE = @\"" ++ d.value ++ "\";" ∧
  d.name ≠ "" ∧ d.name.toList.all isIdentChar = true ∧ dq ∉ d.value.toList

instance (l : String) (d : Decl) : Decidable (GeneratedForm l d) := by
  unfold GeneratedForm; infer_instance

/-- The names declared by a header, in file order. -/
def declNames (h : List String) : List String :=
  (decls h).map Decl.name

/-! ## Auxiliary facts -/

/-- The recognised lines of the application header. -/
theorem tokens_chefBookHeader : tokens chefBookHeader = some
    [ .importFile "<Foundation/Foundation.h>", .text "",
      .ifHasAttribute "swift_private",
      .define "AC_SWIFT_PRIVATE" "__attribute__((swift_private))",
      .elseBranch, .define "AC_SWIFT_PRIVATE" "", .endIf, .text "",
      .text "/// The resource bundle ID.",
      .text "static NSString * const ACBundleID AC_SWIFT_PRIVATE = @\"bwt.Chef-Book\";",
      .text "",
      .text "/// The \"AccentColor\" asset catalog color resource.",
      .text "static NSString * const ACColorNameAccentColor AC_SWIFT_PRIVATE = @\"AccentColor\";",
      .text "",
      .text "/// The \"Base200Color\" asset catalog color resource.",
      .text "static NSString * const ACColorNameBase200Color AC_SWIFT_PRIVATE = @\"Base200Color\";",
      .text "",
      .text "/// The \"Base300Color\" asset catalog color resource.",
      .text "static NSString * const ACColorNameBase300Color AC_SWIFT_PRIVATE = @\"Base300Color\";",
      .text "",
      .text "/// The \"BaseColor\" asset catalog color resource.",
      .text "static NSString * const ACColorNameBaseColor AC_SWIFT_PRIVATE = @\"BaseColor\";",
      .text "",
      .text "/// The \"MyPrimaryColor\" asset catalog color resource.",
      .text "static NSString * const ACColorNameMyPrimaryColor AC_SWIFT_PRIVATE = @\"MyPrimaryColor\";",
      .text "",
      .text "/// The \"MySecondaryColor\" asset catalog color resource.",
      .text "static NSString * const ACColorNameMySecondaryColor AC_SWIFT_PRIVATE = @\"MySecondaryColor\";",
      .text "",
      .text "/// The \"NeutralColor\" asset catalog color resource.",
      .text "static NSString * const ACColorNameNeutralColor AC_SWIFT_PRIVATE = @\"NeutralColor\";",
      .text "",
      .text "/// The \"TextColor\" asset catalog color resource.",
      .text "static NSString * const ACColorNameTextColor AC_SWIFT_PRIVATE = @\"TextColor\";",
      .text "", .undefine "AC_SWIFT_PRIVATE", .text "" ] := by
  decide

/-- The recognised lines of the widget header. -/
theorem tokens_cookTimerWidgetHeader : tokens cookTimerWidgetHeader = some
    [ .importFile "<Foundation/Foundation.h>", .text "",
      .ifHasAttribute "swift_private",
      .define "AC_SWIFT_PRIVATE" "__attribute__((swift_private))",
      .elseBranch, .define "AC_SWIFT_PRIVATE" "", .endIf, .text "",
      .text "/// The \"AppIconImage\" asset catalog image resource.",
      .text "static NSString * const ACImageNameAppIconImage AC_SWIFT_PRIVATE = @\"AppIconImage\";",
      .text "", .undefine "AC_SWIFT_PRIVATE" ] := by
  decide

/-- The declaration lines of the application header. -/
theorem codeLines_chefBookHeader : codeLines chefBookHeader =
    [ "static NSString * const ACBundleID AC_SWIFT_PRIVATE = @\"bwt.Chef-Book\";",
      "static NSString * const ACColorNameAccentColor AC_SWIFT_PRIVATE = @\"AccentColor\";",
      "static NSString * const ACColorNameBase200Color AC_SWIFT_PRIVATE = @\"Base200Color\";",
      "static NSString * const ACColorNameBase300Color AC_SWIFT_PRIVATE = @\"Base300Color\";",
      "static NSString * const ACColorNameBaseColor AC_SWIFT_PRIVATE = @\"BaseColor\";",
      "static NSString * const ACColorNameMyPrimaryColor AC_SWIFT_PRIVATE = @\"MyPrimaryColor\";",
      "static NSString * const ACColorNameMySecondaryColor AC_SWIFT_PRIVATE = @\"MySecondaryColor\";",
      "static NSString * const ACColorNameNeutralColor AC_SWIFT_PRIVATE = @\"NeutralColor\";",
      "static NSString * const ACColorNameTextColor AC_SWIFT_PRIVATE = @\"TextColor\";" ] := by
  decide

/-- The declaration lines of the widget header. -/
theorem codeLines_cookTimerWidgetHeader : codeLines cookTimerWidgetHeader =
    [ "static NSString * const ACImageNameAppIconImage AC_SWIFT_PRIVATE = @\"AppIconImage\";" ] := by
  decide

/-- No byte string is strictly below itself. -/
theorem lexLt_irrefl (a : List Nat) : lexLt a a = false := by
  induction a with
  | nil => rfl
  | cons x xs ih => simp [lexLt, ih]

/-- The strict byte-wise order is irreflexive. -/
theorem bytesLt_irrefl (s : String) : ¬ bytesLt s s := by
  simp [bytesLt, lexLt_irrefl]

/-- A list whose earlier elements are all strictly below its later ones has no duplicates. -/
theorem nodup_of_pairwise_bytesLt (l : List String) (h : l.Pairwise bytesLt) : l.Nodup := by
  refine List.Pairwise.imp ?_ h
  intro a b hab heq
  subst heq
  exact bytesLt_irrefl a hab

/-- Preprocessing the application header: whatever the translation unit supplies,
the run succeeds, closes its conditional, leaves the watched macro undefined, and every
kept declaration line saw the macro defined with the replacement chosen by the
conditional. -/
theorem preprocess_chefBookHeader (env : PPEnv) (m0 : MacroTable) :
    ∃ st, preprocess env swiftPrivateMacro m0 chefBookHeader = some st ∧
      st.conds = [] ∧ st.macros swiftPrivateMacro = none ∧
      loggedDecls st = (codeLines chefBookHeader).map
        (fun l => (l, some (swiftPrivateBody env))) := by
  cases h : env.hasAttribute "swift_private" <;>
    simp [preprocess, tokens_chefBookHeader, runTokens, step, active, h, setMacro,
      swiftPrivateMacro, swiftPrivateBody, loggedDecls, codeLines_chefBookHeader] <;>
    rfl

/-- The same for the widget header. -/
theorem preprocess_cookTimerWidgetHeader (env : PPEnv) (m0 : MacroTable) :
    ∃ st, preprocess env swiftPrivateMacro m0 cookTimerWidgetHeader = some st ∧
      st.conds = [] ∧ st.macros swiftPrivateMacro = none ∧
      loggedDecls st = (codeLines cookTimerWidgetHeader).map
        (fun l => (l, some (swiftPrivateBody env))) := by
  cases h : env.hasAttribute "swift_private" <;>
    simp [preprocess, tokens_cookTimerWidgetHeader, runTokens, step, active, h, setMacro,
      swiftPrivateMacro, swiftPrivateBody, loggedDecls, codeLines_cookTimerWidgetHeader] <;>
    rfl

/-! ## The claims -/

/-- Claim C1: every asset symbol of either header (every declaration other than the
bundle identifier) is named `AC ++ Kind ++ Name ++ value`, with `Kind` equal to `Color`
for all eight symbols of the application header and `Image` for the single symbol of the
widget header. -/
theorem asset_names_follow_convention :
    (∀ d ∈ assetSymbols chefBookHeader,
      d.name = "AC" ++ "Color" ++ "Name" ++ d.value ∧ kindOf d = some "Color") ∧
    (assetSymbols chefBookHeader).length = 8 ∧
    (∀ d ∈ assetSymbols cookTimerWidgetHeader,
      d.name = "AC" ++ "Image" ++ "Name" ++ d.value ∧ kindOf d = some "Image") ∧
    (assetSymbols cookTimerWidgetHeader).length = 1 := by
  decide

/-- Instance of claim C1 at the first colour symbol of the application header. -/
theorem asset_names_follow_convention_witness :
    (⟨"ACColorNameAccentColor", "AccentColor"⟩ : Decl) ∈ assetSymbols chefBookHeader ∧
    "ACColorNameAccentColor" = "AC" ++ "Color" ++ "Name" ++ "AccentColor" :=
  ⟨by decide,
   (asset_names_follow_convention.1 ⟨"ACColorNameAccentColor", "AccentColor"⟩ (by decide)).1⟩

/-- Claim C2 as stated fails: it is not the case that both headers declare a bundle
identifier constant. -/
theorem both_headers_have_bundle_id_fails :
    ¬ (hasBundleId chefBookHeader = true ∧ hasBundleId cookTimerWidgetHeader = true) := by
  decide

/-- Claim C2, amended: the application header declares the bundle identifier constant
`ACBundleID`; the widget header declares none, its only declaration is the image symbol
`ACImageNameAppIconImage`, and no line of it mentions `BundleID` or `bundle ID`. -/
theorem bundle_id_only_in_app_header :
    hasBundleId chefBookHeader = true ∧
    hasBundleId cookTimerWidgetHeader = false ∧
    decls cookTimerWidgetHeader = [⟨"ACImageNameAppIconImage", "AppIconImage"⟩] ∧
    codeLines cookTimerWidgetHeader =
      ["static NSString * const ACImageNameAppIconImage AC_SWIFT_PRIVATE = @\"AppIconImage\";"] ∧
    cookTimerWidgetHeader.all
      (fun l => !occursIn "BundleID".toList l.toList && !occursIn "bundle ID".toList l.toList)
      = true := by
  decide

/-- Claim C3: within each header the declared names are pairwise distinct: the nine names
of the application header have no duplicates, likewise the names of the widget header,
and declarations at two different positions of the same file have different names. -/
theorem declared_names_distinct :
    (declNames chefBookHeader).Nodup ∧ (declNames chefBookHeader).length = 9 ∧
    (declNames cookTimerWidgetHeader).Nodup ∧ (declNames cookTimerWidgetHeader).length = 1 ∧
    (codeLines chefBookHeader).length = 9 ∧ (codeLines cookTimerWidgetHeader).length = 1 ∧
    (∀ h, h = chefBookHeader ∨ h = cookTimerWidgetHeader →
      ∀ i j : Nat, i ≠ j → i < (declNames h).length → j < (declNames h).length →
        (declNames h)[i]? ≠ (declNames h)[j]?) := by
  have h1 : (declNames chefBookHeader).Nodup := by decide
  have h2 : (declNames cookTimerWidgetHeader).Nodup := by decide
  refine ⟨h1, by decide, h2, by decide, by decide, by decide, ?_⟩
  intro h hh i j hij hi hj
  have hn : (declNames h).Nodup := by
    rcases hh with rfl | rfl
    · exact h1
    · exact h2
  rcases Nat.lt_or_gt_of_ne hij with hlt | hgt
  · exact List.nodup_iff_getElem?_ne_getElem?.mp hn i j hlt hj
  · exact fun e => List.nodup_iff_getElem?_ne_getElem?.mp hn j i hgt hi e.symm

/-- Instance of claim C3 at the first two declarations of the application header. -/
theorem declared_names_distinct_witness :
    (0 : Nat) ≠ 1 ∧ 0 < (declNames chefBookHeader).length ∧
    1 < (declNames chefBookHeader).length ∧
    (declNames chefBookHeader)[0]? ≠ (declNames chefBookHeader)[1]? :=
  ⟨by decide, by decide, by decide,
   declared_names_distinct.2.2.2.2.2.2 chefBookHeader (Or.inl rfl) 0 1
     (by decide) (by decide) (by decide)⟩

/-- Claim C4: every declaration line of both headers has the form
`static NSString * const <name> AC_SWIFT_PRIVATE = @"<literal>";`, so none omits the
`static` storage class, the `const` qualifier, the marker or the string literal; there are
nine such lines in the application header and one in the widget header. -/
theorem declarations_have_generated_form :
    (∀ l ∈ codeLines chefBookHeader, ∃ d, parseDecl l = some d ∧ GeneratedForm l d) ∧
    (codeLines chefBookHeader).length = 9 ∧
    (∀ l ∈ codeLines cookTimerWidgetHeader, ∃ d, parseDecl l = some d ∧ GeneratedForm l d) ∧
    (codeLines cookTimerWidgetHeader).length = 1 := by
  have key : ∀ h : List String,
      (∀ l ∈ codeLines h, (parseDecl l).any (fun d => decide (GeneratedForm l d)) = true) →
      ∀ l ∈ codeLines h, ∃ d, parseDecl l = some d ∧ GeneratedForm l d := by
    intro h hall l hl
    have hl2 := hall l hl
    cases hp : parseDecl l with
    | none => simp [hp] at hl2
    | some d =>
      rw [hp] at hl2
      exact ⟨d, rfl, by simpa using hl2⟩
  exact ⟨key _ (by decide), by decide, key _ (by decide), by decide⟩

/-- Instance of claim C4 at the declaration line of the widget header. -/
theorem declarations_have_generated_form_witness :
    "static NSString * const ACImageNameAppIconImage AC_SWIFT_PRIVATE = @\"AppIconImage\";"
      ∈ codeLines cookTimerWidgetHeader ∧
    ∃ d, parseDecl
        "static NSString * const ACImageNameAppIconImage AC_SWIFT_PRIVATE = @\"AppIconImage\";"
        = some d ∧
      GeneratedForm
        "static NSString * const ACImageNameAppIconImage AC_SWIFT_PRIVATE = @\"AppIconImage\";" d :=
  ⟨by decide, declarations_have_generated_form.2.2.1 _ (by decide)⟩

/-- Claim C5: in either header the line directly above each asset symbol's declaration
is the comment `/// The "<X>" asset catalog <kind> resource.` where `<X>` is the symbol's
string value and `<kind>` is the lower-cased `Kind` of its name, `color` or `image`; the
symbols so paired are all the asset symbols of the header. -/
theorem asset_doc_comment_precedes_declaration :
    (∀ h, h = chefBookHeader ∨ h = cookTimerWidgetHeader →
      ∀ p ∈ assetSymbolsWithPrev h, ∃ k, kindOf p.2 = some k ∧
        (lowerCase k = "color" ∨ lowerCase k = "image") ∧
        p.1 = some (assetDoc p.2.value (lowerCase k))) ∧
    (assetSymbolsWithPrev chefBookHeader).map Prod.snd = assetSymbols chefBookHeader ∧
    (assetSymbolsWithPrev cookTimerWidgetHeader).map Prod.snd
      = assetSymbols cookTimerWidgetHeader := by
  refine ⟨?_, by decide, by decide⟩
  have hc : ∀ p ∈ assetSymbolsWithPrev chefBookHeader,
      kindOf p.2 = some "Color" ∧ p.1 = some (assetDoc p.2.value (lowerCase "Color")) := by
    decide
  have hw : ∀ p ∈ assetSymbolsWithPrev cookTimerWidgetHeader,
      kindOf p.2 = some "Image" ∧ p.1 = some (assetDoc p.2.value (lowerCase "Image")) := by
    decide
  intro h hh p hp
  rcases hh with rfl | rfl
  · exact ⟨"Color", (hc p hp).1, Or.inl (by decide), (hc p hp).2⟩
  · exact ⟨"Image", (hw p hp).1, Or.inr (by decide), (hw p hp).2⟩

/-- Instance of claim C5 at the image symbol of the widget header. -/
theorem asset_doc_comment_precedes_declaration_witness :
    ((some "/// The \"AppIconImage\" asset catalog image resource.",
        (⟨"ACImageNameAppIconImage", "AppIconImage"⟩ : Decl)) : Option String × Decl)
      ∈ assetSymbolsWithPrev cookTimerWidgetHeader ∧
    ∃ k, kindOf ⟨"ACImageNameAppIconImage", "AppIconImage"⟩ = some k ∧
      (lowerCase k = "color" ∨ lowerCase k = "image") ∧
      some "/// The \"AppIconImage\" asset catalog image resource."
        = some (assetDoc "AppIconImage" (lowerCase k)) :=
  ⟨by decide,
   asset_doc_comment_precedes_declaration.1 cookTimerWidgetHeader (Or.inr rfl)
     (some "/// The \"AppIconImage\" asset catalog image resource.",
       ⟨"ACImageNameAppIconImage", "AppIconImage"⟩) (by decide)⟩

/-- Claim C7: the application header declares exactly one bundle identifier constant,
named `ACBundleID` with value `bwt.Chef-Book`; it is the first declaration of the file,
under the comment `/// The resource bundle ID.`, and every other declaration of the file
has a name starting with `ACColorName`. -/
theorem app_header_bundle_id :
    (decls chefBookHeader).head? = some ⟨"ACBundleID", "bwt.Chef-Book"⟩ ∧
    (declsWithPrev none chefBookHeader).head?
      = some (some "/// The resource bundle ID.", ⟨"ACBundleID", "bwt.Chef-Book"⟩) ∧
    (decls chefBookHeader).filter (fun d => d.name = bundleIdName)
      = [⟨"ACBundleID", "bwt.Chef-Book"⟩] ∧
    (decls chefBookHeader).filter (fun d => !startsWithLit "ACColorName" d.name)
      = [⟨"ACBundleID", "bwt.Chef-Book"⟩] ∧
    (∀ d ∈ decls chefBookHeader, d.name ≠ "ACBundleID" →
      startsWithLit "ACColorName" d.name = true) ∧
    (∀ d ∈ (decls chefBookHeader).tail, startsWithLit "ACColorName" d.name = true) := by
  decide

/-- Instance of claim C7 at the last declaration of the application header. -/
theorem app_header_bundle_id_witness :
    (⟨"ACColorNameTextColor", "TextColor"⟩ : Decl) ∈ decls chefBookHeader ∧
    "ACColorNameTextColor" ≠ "ACBundleID" ∧
    startsWithLit "ACColorName" "ACColorNameTextColor" = true :=
  ⟨by decide, by decide,
   app_header_bundle_id.2.2.2.2.1 ⟨"ACColorNameTextColor", "TextColor"⟩ (by decide) (by decide)⟩

/-- Claim C8: within each header the asset symbols are declared in strictly ascending
byte-wise lexicographic order of their string values (every earlier value is strictly
below every later one); in the application header the values are `AccentColor`,
`Base200Color`, `Base300Color`, `BaseColor`, `MyPrimaryColor`, `MySecondaryColor`,
`NeutralColor`, `TextColor` in that order; consequently the values of a file are pairwise
distinct. -/
theorem asset_values_strictly_ascending :
    assetValues chefBookHeader =
      ["AccentColor", "Base200Color", "Base300Color", "BaseColor", "MyPrimaryColor",
       "MySecondaryColor", "NeutralColor", "TextColor"] ∧
    assetValues cookTimerWidgetHeader = ["AppIconImage"] ∧
    (assetValues chefBookHeader).Pairwise bytesLt ∧
    (assetValues cookTimerWidgetHeader).Pairwise bytesLt ∧
    (assetValues chefBookHeader).Nodup ∧
    (assetValues cookTimerWidgetHeader).Nodup := by
  have hc : (assetValues chefBookHeader).Pairwise bytesLt := by decide
  have hw : (assetValues cookTimerWidgetHeader).Pairwise bytesLt := by decide
  exact ⟨by decide, by decide, hc, hw,
    nodup_of_pairwise_bytesLt _ hc, nodup_of_pairwise_bytesLt _ hw⟩

/-- Claim C9: preprocessing either header, for every value of
`__has_attribute(swift_private)`, every effect of the `#import` and every macro table of the
including translation unit, succeeds with the conditional closed; each declaration line is
reached with `AC_SWIFT_PRIVATE` defined, as `__attribute__((swift_private))` on the one
branch and as the empty replacement on the other; after the run the macro is undefined, in
particular when it was undefined before; and the `#undef` line comes after the last
declaration, followed by nothing but an empty line. -/
theorem swift_private_defined_then_removed (env : PPEnv) (m0 : MacroTable) :
    (∃ st, preprocess env swiftPrivateMacro m0 chefBookHeader = some st ∧
      st.conds = [] ∧ st.macros swiftPrivateMacro = none ∧
      loggedDecls st = (codeLines chefBookHeader).map
        (fun l => (l, some (swiftPrivateBody env)))) ∧
    (∃ st, preprocess env swiftPrivateMacro m0 cookTimerWidgetHeader = some st ∧
      st.conds = [] ∧ st.macros swiftPrivateMacro = none ∧
      loggedDecls st = (codeLines cookTimerWidgetHeader).map
        (fun l => (l, some (swiftPrivateBody env)))) ∧
    fromUndef chefBookHeader = ["#undef AC_SWIFT_PRIVATE", ""] ∧
    fromUndef cookTimerWidgetHeader = ["#undef AC_SWIFT_PRIVATE"] ∧
    (codeLines chefBookHeader).length = 9 ∧ (codeLines cookTimerWidgetHeader).length = 1 :=
  ⟨preprocess_chefBookHeader env m0, preprocess_cookTimerWidgetHeader env m0,
   by decide, by decide, by decide, by decide⟩

/-- Instance of claim C9 for the application header: a translation unit in which the
attribute is available, the import defines nothing, and no macro is defined beforehand. -/
theorem swift_private_defined_then_removed_witness :
    ∃ st, preprocess ⟨fun _ => true, fun _ m => m⟩ swiftPrivateMacro (fun _ => none)
        chefBookHeader = some st ∧
      st.conds = [] ∧ st.macros swiftPrivateMacro = none ∧
      loggedDecls st = (codeLines chefBookHeader).map
        (fun l => (l, some (swiftPrivateBody ⟨fun _ => true, fun _ m => m⟩))) :=
  (swift_private_defined_then_removed ⟨fun _ => true, fun _ m => m⟩ (fun _ => none)).1

end ChefBook
